import Mathlib

/-!
Verification of the plugin-request instrumentation middleware, the graphite
autocomplete providers and the playlist REST handlers of this repository.

The instrumentation middleware itself (`newMetricsMiddleware`, the
status-source classifier, `NewStatusSourceMiddleware`) and the graphite
`state/providers` module are exercised only by the test files present in the
repository; their definitions below are modelled from the specification and
say so in their doc comments.  The playlist handlers are embedded directly
from `pkg/api/playlist.go`.
-/

namespace Grafana

/-- Declared error source of a single data-query sub-result, as in
`backend.ErrorSource`: `"plugin"`, `"downstream"`, or the empty string
(legacy / undeclared), written `unspecified` here. -/
inductive ErrorSource where
  | plugin
  | downstream
  | unspecified
deriving DecidableEq, Repr

/-- One sub-result of a data-query batch, as in `backend.DataResponse`:
an optional error message, an HTTP-like status code, and a declared error
source. -/
structure DataResponse where
  error : Option String
  status : Nat
  errorSource : ErrorSource
deriving DecidableEq, Repr

/-- A data-query batch: a finite map from ref-id to sub-result, represented
as an association list (`map[string]backend.DataResponse` in the tests). -/
abbrev Batch := List (String × DataResponse)

/-- Status source attributed to a whole invocation
(`pluginrequestmeta.StatusSource`). -/
inductive StatusSource where
  | plugin
  | downstream
deriving DecidableEq, Repr

/-- Request status recorded in the metrics labels: `ok` or `error`. -/
inductive Status where
  | ok
  | error
deriving DecidableEq, Repr

/-- Whether a declared source counts as plugin-attributed: a declared
`plugin` source, or a legacy error with no declared source. -/
def sourceIsPluginOrLegacy : ErrorSource → Bool
  | .plugin => true
  | .unspecified => true
  | .downstream => false

/-- A sub-result carries a plugin-attributed error: it has an error whose
declared source is `plugin` or is undeclared. -/
def hasPluginOrLegacyError (r : DataResponse) : Bool :=
  r.error.isSome && sourceIsPluginOrLegacy r.errorSource

/-- A sub-result carries a downstream-sourced error. -/
def hasDownstreamError (r : DataResponse) : Bool :=
  r.error.isSome && (r.errorSource == ErrorSource.downstream)

/-- Modelled from the spec: the outcome classifier of the instrumentation
middleware (its Go source is not part of this excerpt; only its tests are).
Spec 4.1: (1) if any sub-result has an error whose declared source is
"plugin", or has an error with no declared source, classify status-source =
plugin; (2) else if any sub-result has an error whose declared source is
"downstream", classify status-source = downstream; (3) else classify
status-source = plugin. -/
def classifyStatusSource (batch : Batch) : StatusSource :=
  if batch.any (fun kv => hasPluginOrLegacyError kv.2) then .plugin
  else if batch.any (fun kv => hasDownstreamError kv.2) then .downstream
  else .plugin

/-- Modelled from the spec: the status recorded for the invocation; spec 4.1
step 3 assigns status = ok exactly when no sub-result carries an error. -/
def classifyStatus (batch : Batch) : Status :=
  if batch.any (fun kv => kv.2.error.isSome) then .error else .ok

/-- The sub-results used by `TestInstrumentationMiddlewareStatusSource`. -/
def downstreamErrorResponse : DataResponse :=
  ⟨some "bad gateway", 502, .downstream⟩

def pluginErrorResponse : DataResponse :=
  ⟨some "internal error", 500, .plugin⟩

def legacyErrorResponse : DataResponse :=
  ⟨some "internal error", 500, .unspecified⟩

def okResponse : DataResponse :=
  ⟨none, 200, .unspecified⟩

theorem statusSource_plugin_of_mem (batch : Batch) (kv : String × DataResponse)
    (hmem : kv ∈ batch) (h : hasPluginOrLegacyError kv.2 = true) :
    classifyStatusSource batch = .plugin := by
  have hany : batch.any (fun kv => hasPluginOrLegacyError kv.2) = true :=
    List.any_eq_true.mpr ⟨kv, hmem, h⟩
  simp [classifyStatusSource, hany]

/-- Claim C1: every batch containing at least one sub-result whose error is
declared plugin-sourced is classified with status-source `plugin`, regardless
of the position of that sub-result and of any other downstream errors or
successes in the batch. -/
theorem statusSource_plugin_of_plugin_error (batch : Batch)
    (h : ∃ kv ∈ batch, kv.2.error.isSome = true ∧ kv.2.errorSource = ErrorSource.plugin) :
    classifyStatusSource batch = .plugin := by
  obtain ⟨kv, hmem, herr, hsrc⟩ := h
  exact statusSource_plugin_of_mem batch kv hmem
    (by simp [hasPluginOrLegacyError, herr, hsrc, sourceIsPluginOrLegacy])

/-- Witness for C1, on the batch of the `Priority` test mixing a
plugin-sourced and a downstream-sourced error. -/
theorem statusSource_plugin_of_plugin_error_witness :
    classifyStatusSource [("A", pluginErrorResponse), ("B", downstreamErrorResponse)]
      = .plugin :=
  statusSource_plugin_of_plugin_error _
    ⟨("A", pluginErrorResponse), by decide, by decide, by decide⟩

/-- Claim C2: an error with no declared source is treated exactly like a
plugin-sourced error: replacing an undeclared-source error anywhere in a
batch by a plugin-sourced one leaves the classified status-source unchanged,
and a batch whose only error is undeclared classifies as `plugin`. -/
theorem statusSource_legacy_equals_plugin
    (pre post : Batch) (k : String) (r : DataResponse)
    (herr : r.error.isSome = true) (hsrc : r.errorSource = ErrorSource.unspecified)
    (batch : Batch)
    (hone : ∃ kv ∈ batch, kv.2.error.isSome = true ∧ kv.2.errorSource = ErrorSource.unspecified)
    (_hall : ∀ kv ∈ batch, kv.2.error.isSome = true → kv.2.errorSource = ErrorSource.unspecified) :
    classifyStatusSource (pre ++ (k, { r with errorSource := .plugin }) :: post)
        = classifyStatusSource (pre ++ (k, r) :: post)
      ∧ classifyStatusSource batch = .plugin := by
  constructor
  · rw [statusSource_plugin_of_mem (pre ++ (k, { r with errorSource := .plugin }) :: post)
        (k, { r with errorSource := .plugin })
        (List.mem_append_right _ (List.mem_cons_self _ _))
        (by simp [hasPluginOrLegacyError, herr, sourceIsPluginOrLegacy]),
      statusSource_plugin_of_mem (pre ++ (k, r) :: post) (k, r)
        (List.mem_append_right _ (List.mem_cons_self _ _))
        (by simp [hasPluginOrLegacyError, herr, hsrc, sourceIsPluginOrLegacy])]
  · obtain ⟨kv, hmem, herr2, hsrc2⟩ := hone
    exact statusSource_plugin_of_mem batch kv hmem
      (by simp [hasPluginOrLegacyError, herr2, hsrc2, sourceIsPluginOrLegacy])

/-- Witness for C2, on the single-legacy-error batch of the `Priority`
test. -/
theorem statusSource_legacy_equals_plugin_witness :
    (classifyStatusSource [("A", { legacyErrorResponse with errorSource := .plugin })]
        = classifyStatusSource [("A", legacyErrorResponse)])
      ∧ classifyStatusSource [("A", legacyErrorResponse)] = .plugin :=
  statusSource_legacy_equals_plugin [] [] "A" legacyErrorResponse
    (by decide) (by decide) [("A", legacyErrorResponse)]
    ⟨("A", legacyErrorResponse), by decide, by decide, by decide⟩
    (by decide)

/-- Claim C3: a batch with at least one downstream-sourced error in which
every error is downstream-sourced (no plugin-sourced or undeclared-source
error) classifies with status-source `downstream`. -/
theorem statusSource_downstream_of_only_downstream_errors (batch : Batch)
    (hone : ∃ kv ∈ batch, kv.2.error.isSome = true ∧ kv.2.errorSource = ErrorSource.downstream)
    (hall : ∀ kv ∈ batch, kv.2.error.isSome = true → kv.2.errorSource = ErrorSource.downstream) :
    classifyStatusSource batch = .downstream := by
  have hno : batch.any (fun kv => hasPluginOrLegacyError kv.2) = false := by
    rw [List.any_eq_false]
    intro kv hmem
    intro hcontra
    have herr : kv.2.error.isSome = true := (Bool.and_eq_true _ _ |>.mp hcontra).1
    have hsrc := hall kv hmem herr
    rw [hasPluginOrLegacyError, hsrc] at hcontra
    simp [sourceIsPluginOrLegacy] at hcontra
  obtain ⟨kv, hmem, herr, hsrc⟩ := hone
  have hyes : batch.any (fun kv => hasDownstreamError kv.2) = true :=
    List.any_eq_true.mpr ⟨kv, hmem, by simp [hasDownstreamError, herr, hsrc]⟩
  simp [classifyStatusSource, hno, hyes]

/-- Witness for C3, on the batch of the `Priority` test mixing a success and
one downstream-sourced error. -/
theorem statusSource_downstream_witness :
    classifyStatusSource [("A", okResponse), ("B", downstreamErrorResponse)]
      = .downstream :=
  statusSource_downstream_of_only_downstream_errors _
    ⟨("B", downstreamErrorResponse), by decide, by decide, by decide⟩
    (by decide)

/-- Claim C4: a batch in which every sub-result has a nil error — including
the empty batch — classifies with status-source `plugin` and status `ok`. -/
theorem statusSource_plugin_and_ok_of_no_errors (batch : Batch)
    (h : ∀ kv ∈ batch, kv.2.error = none) :
    classifyStatusSource batch = .plugin ∧ classifyStatus batch = .ok := by
  have herr : ∀ kv ∈ batch, kv.2.error.isSome = false := by
    intro kv hmem
    rw [h kv hmem]
    rfl
  have h1 : batch.any (fun kv => hasPluginOrLegacyError kv.2) = false := by
    rw [List.any_eq_false]
    intro kv hmem
    simp [hasPluginOrLegacyError, herr kv hmem]
  have h2 : batch.any (fun kv => kv.2.error.isSome) = false := by
    rw [List.any_eq_false]
    intro kv hmem
    simp [herr kv hmem]
  have h3 : batch.any (fun kv => hasDownstreamError kv.2) = false := by
    rw [List.any_eq_false]
    intro kv hmem
    simp [hasDownstreamError, herr kv hmem]
  constructor
  · simp [classifyStatusSource, h1, h3]
  · simp [classifyStatus, h2]

/-- Witness for C4, on the empty batch and on the all-ok batch of the
`Priority` test. -/
theorem statusSource_plugin_and_ok_of_no_errors_witness :
    (classifyStatusSource ([] : Batch) = .plugin ∧ classifyStatus ([] : Batch) = .ok)
      ∧ (classifyStatusSource [("A", okResponse)] = .plugin
          ∧ classifyStatus [("A", okResponse)] = .ok) :=
  ⟨statusSource_plugin_and_ok_of_no_errors [] (by decide),
   statusSource_plugin_and_ok_of_no_errors [("A", okResponse)] (by decide)⟩

/-- The base label names of the plugin request counter:
plugin id, endpoint, status, target. -/
def baseCounterLabelNames : List String :=
  ["plugin_id", "endpoint", "status", "target"]

/-- The optional status-source label name. -/
def labelStatusSource : String := "status_source"

/-- Modelled from the spec: the label schema of the request counter built by
`newMetricsMiddleware` (source not in this excerpt) depends on the
status-source feature toggle, resolved once at construction: when the toggle
is on the counter carries the status-source label in addition to the base
labels; when it is off the schema is exactly the base labels, with no
status-source key at all. -/
def pluginRequestCounterLabelNames (statusSourceEnabled : Bool) : List String :=
  if statusSourceEnabled then baseCounterLabelNames ++ [labelStatusSource]
  else baseCounterLabelNames

/-- Modelled from the spec: querying a labeled metric vector
(`GetMetricWith`) with a label map whose cardinality differs from the
registered schema fails with an inconsistent-label-cardinality error;
with matching cardinality it succeeds exactly when every registered label
name is supplied. -/
def getMetricWith (labelNames : List String) (labels : List (String × String)) :
    Except String Unit :=
  if labels.length ≠ labelNames.length then
    .error "inconsistent label cardinality"
  else if labelNames.all (fun n => labels.any (fun kv => kv.1 == n)) then
    .ok ()
  else
    .error "label name missing in label map"

/-- Claim C5: with the status-source toggle off the request counter has no
status-source label key at all — queries with the base labels succeed and
queries adding a status_source label fail with an
inconsistent-label-cardinality error — while with the toggle on the counter
carries the status_source label and is queryable with it. -/
theorem counter_labels_follow_feature_toggle (pid ep st tg ss : String) :
    labelStatusSource ∉ pluginRequestCounterLabelNames false
      ∧ getMetricWith (pluginRequestCounterLabelNames false)
          [("plugin_id", pid), ("endpoint", ep), ("status", st), ("target", tg)]
          = .ok ()
      ∧ getMetricWith (pluginRequestCounterLabelNames false)
          [("plugin_id", pid), ("endpoint", ep), ("status", st), ("target", tg),
           ("status_source", ss)]
          = .error "inconsistent label cardinality"
      ∧ labelStatusSource ∈ pluginRequestCounterLabelNames true
      ∧ getMetricWith (pluginRequestCounterLabelNames true)
          [("plugin_id", pid), ("endpoint", ep), ("status", st), ("target", tg),
           ("status_source", ss)]
          = .ok () := by
  refine ⟨by decide, ?_, ?_, by decide, ?_⟩ <;>
    simp [getMetricWith, pluginRequestCounterLabelNames, baseCounterLabelNames,
      labelStatusSource]

/-- The four wrapped endpoints. -/
inductive Endpoint where
  | checkHealth
  | callResource
  | queryData
  | collectMetrics
deriving DecidableEq, Repr

/-- The endpoint label values used in the metrics. -/
def endpointName : Endpoint → String
  | .checkHealth => "checkHealth"
  | .callResource => "callResource"
  | .queryData => "queryData"
  | .collectMetrics => "collectMetrics"

/-- The status label values. -/
def statusName : Status → String
  | .ok => "ok"
  | .error => "error"

/-- Endpoints that carry a request payload, whose byte size is observed into
the size histogram: resource calls and data queries. -/
def instrumentsRequestSize : Endpoint → Bool
  | .callResource => true
  | .queryData => true
  | .checkHealth => false
  | .collectMetrics => false

/-- A label-value tuple identifying one metric child. -/
abbrev LabelValues := List String

/-- A labeled family of monotonic event counts (number of counter increments
or histogram observations per label tuple), as an association list. -/
abbrev MetricVec := List (LabelValues × Nat)

/-- Record one event (increment / observation) at the given label tuple. -/
def bumpMetric : MetricVec → LabelValues → MetricVec
  | [], l => [(l, 1)]
  | (l', n) :: rest, l =>
    if l' = l then (l', n + 1) :: rest else (l', n) :: bumpMetric rest l

/-- The number of events recorded at the given label tuple. -/
def metricCount : MetricVec → LabelValues → Nat
  | [], _ => 0
  | (l', n) :: rest, l => if l' = l then n else metricCount rest l

theorem metricCount_bumpMetric_self (m : MetricVec) (l : LabelValues) :
    metricCount (bumpMetric m l) l = metricCount m l + 1 := by
  induction m with
  | nil => simp [bumpMetric, metricCount]
  | cons hd rest ih =>
    obtain ⟨l', n⟩ := hd
    by_cases h : l' = l
    · simp [bumpMetric, metricCount, h]
    · simp [bumpMetric, metricCount, h, ih]

/-- The metrics registry of the middleware: request counter, the two
duration histograms and the request-size histogram, each tracked as the
number of recorded events per label tuple. -/
structure Registry where
  requestTotal : MetricVec
  durationMs : MetricVec
  durationS : MetricVec
  requestSize : MetricVec
deriving Repr

/-- Modelled from the spec: after a wrapped invocation completes, the
recorder increments the request counter labeled (plugin id, endpoint,
status, target) and observes the elapsed duration into the
millisecond-bucketed and second-bucketed histograms with the same labels;
for endpoints carrying a request payload it additionally observes the
payload size into the size histogram, labeled additionally by payload
source. -/
def recordMetrics (reg : Registry) (pluginId : String) (e : Endpoint)
    (st : Status) (target : String) (payloadSource : String) : Registry :=
  let l : LabelValues := [pluginId, endpointName e, statusName st, target]
  let reg :=
    { reg with
      requestTotal := bumpMetric reg.requestTotal l
      durationMs := bumpMetric reg.durationMs l
      durationS := bumpMetric reg.durationS l }
  if instrumentsRequestSize e then
    { reg with requestSize := bumpMetric reg.requestSize (l ++ [payloadSource]) }
  else
    reg

/-- Claim C6: every completed invocation records exactly one increment of
the request counter at (plugin id, endpoint, status, target), exactly one
observation in each duration histogram at the same labels, and one
observation in the payload-size histogram exactly when the endpoint is a
resource call or a data query, never for health check or metrics
collection. -/
theorem recordMetrics_counts (reg : Registry) (pluginId : String)
    (e : Endpoint) (st : Status) (target payloadSource : String) :
    metricCount (recordMetrics reg pluginId e st target payloadSource).requestTotal
        [pluginId, endpointName e, statusName st, target]
      = metricCount reg.requestTotal [pluginId, endpointName e, statusName st, target] + 1
    ∧ metricCount (recordMetrics reg pluginId e st target payloadSource).durationMs
        [pluginId, endpointName e, statusName st, target]
      = metricCount reg.durationMs [pluginId, endpointName e, statusName st, target] + 1
    ∧ metricCount (recordMetrics reg pluginId e st target payloadSource).durationS
        [pluginId, endpointName e, statusName st, target]
      = metricCount reg.durationS [pluginId, endpointName e, statusName st, target] + 1
    ∧ metricCount (recordMetrics reg pluginId e st target payloadSource).requestSize
        [pluginId, endpointName e, statusName st, target, payloadSource]
      = metricCount reg.requestSize [pluginId, endpointName e, statusName st, target, payloadSource]
          + (if instrumentsRequestSize e then 1 else 0)
    ∧ (instrumentsRequestSize e = true ↔ (e = .callResource ∨ e = .queryData)) := by
  refine ⟨?_, ?_, ?_, ?_, by cases e <;> simp [instrumentsRequestSize]⟩ <;>
    cases e <;>
      simp [recordMetrics, instrumentsRequestSize, metricCount_bumpMetric_self]

/-- Outcome of an inner wrapped operation: a value or a Go error. -/
abbrev InnerResult (α : Type) := Except String α

/-- Modelled from the spec: recording may fail internally (label-cardinality
mismatch); such a failure is represented by an `Except` result of the
recording step. -/
def tryRecordMetrics (recordingFails : Bool) (reg : Registry)
    (pluginId : String) (e : Endpoint) (st : Status)
    (target payloadSource : String) : Except String Registry :=
  if recordingFails then .error "inconsistent label cardinality"
  else .ok (recordMetrics reg pluginId e st target payloadSource)

/-- Modelled from the spec: the wrapping protocol — start timer, invoke the
inner operation, record metrics, and return the inner result and error
unchanged to the caller; a metrics-recording failure is swallowed and never
alters or aborts the wrapped operation. -/
def instrumentedCall {α : Type} (recordingFails : Bool) (reg : Registry)
    (pluginId : String) (e : Endpoint) (target payloadSource : String)
    (inner : InnerResult α) : Registry × InnerResult α :=
  let st : Status := match inner with
    | .ok _ => .ok
    | .error _ => .error
  let reg' := match tryRecordMetrics recordingFails reg pluginId e st target payloadSource with
    | .ok r => r
    | .error _ => reg
  (reg', inner)

/-- Claim C7: the middleware returns the inner operation's result and error
to the caller unchanged — for every inner outcome and every
metrics-recording outcome (including a recording failure), the caller
observes exactly the inner result. -/
theorem instrumentedCall_transparent {α : Type} (recordingFails : Bool)
    (reg : Registry) (pluginId : String) (e : Endpoint)
    (target payloadSource : String) (inner : InnerResult α) :
    (instrumentedCall recordingFails reg pluginId e target payloadSource inner).2
      = inner := by
  rfl

/-- The graphite autocomplete provider operations exercised by the store
tests: `getAltSegmentsSelectables`, `getTagsSelectables`,
`getTagsAsSegmentsSelectables`. -/
inductive AutocompleteOp where
  | altSegments
  | tags
  | tagsAsSegments
deriving DecidableEq, Repr

/-- Per-editor notification-deduplication state: the set of operation types
whose autocomplete error has already been shown to the user. -/
structure NotifState where
  errorsShown : List AutocompleteOp
deriving Repr

/-- Modelled from the spec: the error handler of the graphite autocomplete
providers (graphite `state/providers`, not in this excerpt) dispatches one
user-facing notification for a failing operation and de-duplicates by
operation type: a second failure of an operation type whose error was
already shown dispatches nothing.  Returns the new state and the number of
notifications dispatched by this call. -/
def handleAutocompleteError (s : NotifState) (op : AutocompleteOp) :
    NotifState × Nat :=
  if op ∈ s.errorsShown then (s, 0)
  else ({ errorsShown := op :: s.errorsShown }, 1)

/-- Run `n` repeated failing calls of the same operation type, starting from
state `s`; returns the final state and the total number of notifications
dispatched across the sequence. -/
def runFailingCalls (s : NotifState) (op : AutocompleteOp) : Nat → NotifState × Nat
  | 0 => (s, 0)
  | n + 1 =>
    let r := handleAutocompleteError s op
    let rest := runFailingCalls r.1 op n
    (rest.1, r.2 + rest.2)

theorem runFailingCalls_shown (s : NotifState) (op : AutocompleteOp)
    (h : op ∈ s.errorsShown) (n : Nat) :
    runFailingCalls s op n = (s, 0) := by
  induction n with
  | zero => rfl
  | succ n ih =>
    simp [runFailingCalls, handleAutocompleteError, h, ih]

/-- Claim C8: for every sequence of at least one repeated failing call of
the same autocomplete operation type, starting from a fresh state, exactly
one user-facing notification is dispatched across the whole sequence: the
first call dispatches it and no later call dispatches another. -/
theorem autocomplete_error_notified_once (op : AutocompleteOp) (n : Nat)
    (h : 1 ≤ n) :
    (runFailingCalls ⟨[]⟩ op n).2 = 1 := by
  obtain ⟨m, rfl⟩ : ∃ m, n = m + 1 := ⟨n - 1, (Nat.succ_pred_eq_of_pos h).symm⟩
  have hstep : handleAutocompleteError ⟨[]⟩ op = ({ errorsShown := [op] }, 1) := by
    simp [handleAutocompleteError]
  have hrest : runFailingCalls ({ errorsShown := [op] } : NotifState) op m
      = ({ errorsShown := [op] }, 0) :=
    runFailingCalls_shown _ op (List.mem_singleton.mpr rfl) m
  simp [runFailingCalls, hstep, hrest]

/-- Witness for C8: three repeated failing `getTagsSelectables` calls
dispatch exactly one notification. -/
theorem autocomplete_error_notified_once_witness :
    (runFailingCalls ⟨[]⟩ AutocompleteOp.tags 3).2 = 1 :=
  autocomplete_error_notified_once AutocompleteOp.tags 3 (by decide)

/-- Go `strconv.Atoi`: an optional sign followed by at least one decimal
digit; anything else fails.  (Bit-width overflow is not modelled; no claim
depends on it.) -/
def goAtoi (s : String) : Option Int :=
  let signed : Bool × List Char :=
    match s.data with
    | '-' :: rest => (true, rest)
    | '+' :: rest => (false, rest)
    | cs => (false, cs)
  match signed with
  | (_, []) => none
  | (neg, digits) =>
    if digits.all Char.isDigit then
      let n : Nat := digits.foldl (fun acc c => acc * 10 + (c.toNat - '0'.toNat)) 0
      some (if neg then -(n : Int) else (n : Int))
    else
      none

/-- `Context.QueryInt`: the integer value of a query parameter, `0` when the
parameter is absent or fails to parse. -/
def queryInt (v : Option String) : Int :=
  match v with
  | none => 0
  | some s => (goAtoi s).getD 0

/-- `playlist.GetPlaylistsQuery` as built by the handler. -/
structure GetPlaylistsQuery where
  name : String
  limit : Int
  orgId : Int
deriving DecidableEq, Repr

/-- `HTTPServer.SearchPlaylists` (pkg/api/playlist.go): reads the `query`
and `limit` query parameters, replaces a zero limit by 1000, and builds the
search query with the signed-in user's org id. -/
def SearchPlaylists (queryParam : String) (limitParam : Option String)
    (userOrgId : Int) : GetPlaylistsQuery :=
  let query := queryParam
  let limit := queryInt limitParam
  let limit := if limit = 0 then 1000 else limit
  { name := query, limit := limit, orgId := userOrgId }

/-- Claim C9: a `SearchPlaylists` request whose limit parameter is absent or
parses to 0 yields a search query with Limit = 1000; a non-zero parsed limit
is used unchanged; Name and OrgId always come from the query parameter and
the signed-in user's org. -/
theorem searchPlaylists_query_fields (queryParam : String)
    (limitParam : Option String) (userOrgId : Int) :
    (queryInt limitParam = 0 →
        (SearchPlaylists queryParam limitParam userOrgId).limit = 1000)
      ∧ (queryInt limitParam ≠ 0 →
        (SearchPlaylists queryParam limitParam userOrgId).limit = queryInt limitParam)
      ∧ (SearchPlaylists queryParam limitParam userOrgId).name = queryParam
      ∧ (SearchPlaylists queryParam limitParam userOrgId).orgId = userOrgId := by
  refine ⟨fun h => ?_, fun h => ?_, rfl, rfl⟩ <;> simp [SearchPlaylists, h]

/-- Witness for C9: an absent limit parameter gives Limit 1000; limit "5"
gives Limit 5; a limit parsing to 0 gives Limit 1000. -/
theorem searchPlaylists_query_fields_witness :
    (SearchPlaylists "x" none 1).limit = 1000
      ∧ (SearchPlaylists "x" (some "5") 1).limit = 5
      ∧ (SearchPlaylists "x" (some "0") 1).limit = 1000 :=
  ⟨(searchPlaylists_query_fields "x" none 1).1 (by decide),
   by
    have h := (searchPlaylists_query_fields "x" (some "5") 1).2.1 (by decide)
    rw [h]; decide,
   (searchPlaylists_query_fields "x" (some "0") 1).1 (by decide)⟩

/-- A stored playlist, reduced to the field `validateOrgPlaylist` reads. -/
structure Playlist where
  orgId : Int
deriving DecidableEq, Repr

/-- Outcome of a non-terminal web handler: an error response with an HTTP
status and message, or fall-through to the next handler. -/
inductive HandlerOutcome where
  | apiError (status : Nat) (message : String)
  | pass
deriving DecidableEq, Repr

/-- `HTTPServer.validateOrgPlaylist` (pkg/api/playlist.go): 404 when the
lookup by UID fails, 404 when the found playlist's OrgId is 0, 403 when its
OrgId differs from the signed-in user's org, otherwise fall through. -/
def validateOrgPlaylist (lookup : Except String Playlist) (userOrgId : Int) :
    HandlerOutcome :=
  match lookup with
  | .error _ => .apiError 404 "Playlist not found"
  | .ok p =>
    if p.orgId = 0 then .apiError 404 "Playlist not found"
    else if p.orgId ≠ userOrgId then
      .apiError 403 "You are not allowed to edit/view playlist"
    else
      .pass

/-- Claim C10: the outcome of `validateOrgPlaylist` is exactly one of: a 404
response when the lookup fails or the found playlist's OrgId is 0; a 403
response when the found playlist's OrgId (non-zero) differs from the user's
org; or fall-through when the playlist exists and its (non-zero) OrgId
equals the user's org. -/
theorem validateOrgPlaylist_cases (lookup : Except String Playlist)
    (userOrgId : Int) :
    (validateOrgPlaylist lookup userOrgId = .apiError 404 "Playlist not found"
        ↔ ((∃ e, lookup = .error e) ∨ (∃ p, lookup = .ok p ∧ p.orgId = 0)))
      ∧ (validateOrgPlaylist lookup userOrgId
            = .apiError 403 "You are not allowed to edit/view playlist"
        ↔ (∃ p, lookup = .ok p ∧ p.orgId ≠ 0 ∧ p.orgId ≠ userOrgId))
      ∧ (validateOrgPlaylist lookup userOrgId = .pass
        ↔ (∃ p, lookup = .ok p ∧ p.orgId ≠ 0 ∧ p.orgId = userOrgId)) := by
  cases lookup with
  | error e =>
    refine ⟨?_, ?_, ?_⟩ <;> simp [validateOrgPlaylist]
  | ok p =>
    by_cases h0 : p.orgId = 0
    · refine ⟨?_, ?_, ?_⟩ <;> simp [validateOrgPlaylist, h0]
    · by_cases horg : p.orgId = userOrgId
      · subst horg
        refine ⟨?_, ?_, ?_⟩ <;> simp [validateOrgPlaylist, h0]
      · refine ⟨?_, ?_, ?_⟩ <;> simp [validateOrgPlaylist, h0, horg]

/-- Witness for C10: the three outcomes at concrete inputs — failed lookup,
wrong org, matching org. -/
theorem validateOrgPlaylist_cases_witness :
    validateOrgPlaylist (.error "not found") 1 = .apiError 404 "Playlist not found"
      ∧ validateOrgPlaylist (.ok ⟨2⟩) 1
          = .apiError 403 "You are not allowed to edit/view playlist"
      ∧ validateOrgPlaylist (.ok ⟨1⟩) 1 = .pass :=
  ⟨(validateOrgPlaylist_cases (.error "not found") 1).1.mpr (Or.inl ⟨"not found", rfl⟩),
   (validateOrgPlaylist_cases (.ok ⟨2⟩) 1).2.1.mpr ⟨⟨2⟩, rfl, by decide, by decide⟩,
   (validateOrgPlaylist_cases (.ok ⟨1⟩) 1).2.2.mpr ⟨⟨1⟩, rfl, by decide, rfl⟩⟩

end Grafana
